import Mathlib

/-!
Verification of the authentication/session subsystem of the `tgxzd/fyp`
environmental-issue reporting application.

The embedding follows the TypeScript sources:
* `src/unnamed/part_001` — JWT utilities (`generateToken`, `verifyToken`),
  password utilities (`hashPassword`, `comparePassword`), session utilities
  (`getSession`, `getCurrentUser`), route handlers (`loginHandler`,
  `registerHandler`, `logoutHandler`), server actions (`login`, `register`,
  `logout`) and form handlers (`handleRegister`, `isValidEmail`).
* `src/unnamed/part_002` — the session variant of `verifyToken`/`getSession`.
* `src/unnamed/part_005` — the Prisma schema and the user-repository
  functions (`getUserById`, `getUserByEmail`, `createUser`, `updateUser`).

External effects are made explicit:
* "now" (wall-clock seconds) is a `Nat` parameter;
* the random bcrypt salt and the store-generated fresh user id are
  parameters;
* the Prisma store is a list of user rows, and a possible low-level store
  failure (a rejected promise from the Prisma client) is an explicit
  `Option String` parameter (`some e` = the underlying call threw `e`);
* the cookie jar is an association list from cookie names to values.
-/

namespace Fyp

/-- The identity type used throughout `part_001`:
`type User = \x7b id: string; name: string | null; email: string \x7d`.
The same shape is the JWT claim set `\x7b id, email, name \x7d`. -/
structure User where
  id : String
  name : Option String
  email : String
deriving DecidableEq, Repr

/-! ### Password utilities (`part_001` lines 50–60)

`hashPassword` draws a fresh random salt (`bcrypt.genSalt(10)`) and produces
a salted one-way digest; `comparePassword` recomputes with the embedded salt
and compares.  The bcrypt primitive itself is an external library; it is
modelled abstractly by a digest that records the salt and (since bcrypt is
collision-free in the model) the password it was derived from. -/

/-- A bcrypt digest: the embedded salt together with the one-way image of
the password, modelled by the password itself. -/
structure Digest where
  salt : Nat
  body : String
deriving DecidableEq, Repr

/-- `hashPassword` (`part_001` line 53), with the random salt explicit. -/
def hashPassword (salt : Nat) (password : String) : Digest :=
  ⟨salt, password⟩

/-- `comparePassword` (`part_001` line 58): recompute with the embedded salt
and compare. -/
def comparePassword (password : String) (d : Digest) : Bool :=
  d.body = password

/-! ### JWT utilities (`part_001` lines 34–48)

`generateToken` signs `\x7b id, email, name \x7d` with `JWT_SECRET` and
`expiresIn: '30d'`; `verifyToken` checks the signature and expiry inside a
`try`, returning `null` on any failure.  A well-formed signed token is a
record of its claims, issue/expiry instants and signing secret; an arbitrary
inbound string that is not a well-formed token is `malformed`. -/

/-- `expiresIn: '30d'` (and cookie `maxAge: 30 * 24 * 60 * 60`) in seconds. -/
def THIRTY_DAYS : Nat := 30 * 24 * 60 * 60

/-- A signed JWT as produced by `sign(\x7b id, email, name \x7d, JWT_SECRET,
\x7b expiresIn: '30d' \x7d)`. -/
structure SignedToken where
  claims : User
  iat : Nat
  exp : Nat
  secret : String
deriving DecidableEq, Repr

/-- A string handed to `verifyToken`: either a well-formed signed token or
any other (malformed) string. -/
inductive TokenInput where
  | signed (t : SignedToken)
  | malformed (s : String)
deriving DecidableEq, Repr

/-- `generateToken` (`part_001` line 37). -/
def generateToken (secret : String) (now : Nat) (user : User) : SignedToken :=
  ⟨user, now, now + THIRTY_DAYS, secret⟩

/-- `verifyToken` (`part_001` line 42, identically `part_002` line 19):
`jsonwebtoken.verify` succeeds iff the token parses, the signature matches
the secret, and the expiry has not passed (`now < exp`); every failure is
caught and turned into `null`. -/
def verifyToken (secret : String) (now : Nat) (t : TokenInput) : Option User :=
  match t with
  | .signed st => if st.secret = secret ∧ now < st.exp then some st.claims else none
  | .malformed _ => none

/-! ### Cookie jar (`next/headers` `cookies()`)

The cookie store is an association list of name/value pairs; the session
value is a `TokenInput`.  `COOKIE_NAME = 'session_token'`. -/

def COOKIE_NAME : String := "session_token"

/-- The request/response cookie store. -/
abbrev CookieJar := List (String × TokenInput)

/-- `cookieStore.get(name)?.value`. -/
def cookieGet (jar : CookieJar) (nm : String) : Option TokenInput :=
  (jar.find? fun p => p.1 = nm).map Prod.snd

/-- `cookieStore.set(\x7b name, value, ... \x7d)`: replaces any existing
cookie of that name. -/
def cookieSet (jar : CookieJar) (nm : String) (v : TokenInput) : CookieJar :=
  (nm, v) :: jar.filter fun p => ¬ p.1 = nm

/-- `cookieStore.delete(name)`. -/
def cookieDelete (jar : CookieJar) (nm : String) : CookieJar :=
  jar.filter fun p => ¬ p.1 = nm

/-! ### The Prisma user store (`part_005` schema, `model User`)

A row of the `User` table; `name String?` is optional, `password` holds the
bcrypt digest.  `email` is `@unique`, so lookup by email is `find?`. -/

/-- A persisted `User` row. -/
structure UserRow where
  id : String
  name : Option String
  email : String
  password : Digest
deriving DecidableEq, Repr

/-- The user table. -/
abbrev Store := List UserRow

/-- `prisma.user.findUnique(\x7b where: \x7b email \x7d \x7d)`. -/
def findUniqueByEmail (s : Store) (email : String) : Option UserRow :=
  s.find? fun u => u.email = email

/-- `prisma.user.findUnique(\x7b where: \x7b id \x7d \x7d)`. -/
def findUniqueById (s : Store) (id : String) : Option UserRow :=
  s.find? fun u => u.id = id

/-! ### Session utilities (`part_001` lines 62–93, `part_002` lines 28–82)

`getSession` reads the session cookie and verifies it; `getCurrentUser`
projects the user out.  Neither raises: every failure path returns `null`. -/

/-- `getSession` (`part_001` line 65): reads the cookie, returns
`\x7b user, isAuthenticated \x7d`. -/
def getSession (jar : CookieJar) (secret : String) (now : Nat) :
    Option User × Bool :=
  match cookieGet jar COOKIE_NAME with
  | none => (none, false)
  | some token =>
    let user := verifyToken secret now token
    (user, user.isSome)

/-- `getCurrentUser` (`part_001` line 82): `(await getSession()).user`. -/
def getCurrentUser (jar : CookieJar) (secret : String) (now : Nat) :
    Option User :=
  (getSession jar secret now).1

/-! ### Server-action results and route-handler responses -/

/-- `AuthResult` (`part_001` line 28):
`\x7b success: boolean; message?: string; user?: User \x7d`. -/
structure AuthResult where
  success : Bool
  message : Option String
  user : Option User
deriving DecidableEq, Repr

/-- A cookie mutation recorded on a `NextResponse`. -/
inductive CookieOp where
  | keep
  | set (v : TokenInput)
  | delete
deriving DecidableEq, Repr

/-- The observable part of a `NextResponse.json(...)` built by the route
handlers: HTTP status, JSON body fields, and the response cookie action. -/
structure HandlerResponse where
  status : Nat
  success : Bool
  message : Option String
  user : Option User
  cookie : CookieOp
deriving DecidableEq, Repr

/-! ### Server actions (`part_001` lines 216–314)

`login` and `register` run against the store and the ambient cookie jar;
both return an `AuthResult` together with the updated store and jar.  The
`catch` branches of the source only fire on an unexpected thrown error from
the store or hash layers and are not reachable in this per-request model,
where store failures are confined to the repository functions of
`part_005`. -/

/-- `login` (`part_001` line 221): unknown email and failed password
comparison both answer `'Invalid credentials'`; success signs a token and
sets the session cookie. -/
def login (s : Store) (jar : CookieJar) (secret : String) (now : Nat)
    (email password : String) : AuthResult × CookieJar :=
  match findUniqueByEmail s email with
  | none => (⟨false, some "Invalid credentials", none⟩, jar)
  | some u =>
    if comparePassword password u.password then
      let token := generateToken secret now ⟨u.id, u.name, u.email⟩
      (⟨true, none, some ⟨u.id, u.name, u.email⟩⟩,
        cookieSet jar COOKIE_NAME (.signed token))
    else
      (⟨false, some "Invalid credentials", none⟩, jar)

/-- `register` (`part_001` line 264): conflict if the email exists;
otherwise hash, create the row (with the store-generated `freshId`), sign a
token and set the session cookie. -/
def register (s : Store) (jar : CookieJar) (secret : String) (now : Nat)
    (freshId : String) (salt : Nat) (name email password : String) :
    AuthResult × Store × CookieJar :=
  match findUniqueByEmail s email with
  | some _ => (⟨false, some "User already exists", none⟩, s, jar)
  | none =>
    let hashed := hashPassword salt password
    let newUser : UserRow := ⟨freshId, some name, email, hashed⟩
    let token := generateToken secret now ⟨newUser.id, newUser.name, newUser.email⟩
    (⟨true, none, some ⟨newUser.id, newUser.name, newUser.email⟩⟩,
      s ++ [newUser],
      cookieSet jar COOKIE_NAME (.signed token))

/-- `logout` (`part_001` line 311): `cookieStore.delete(COOKIE_NAME)`,
unconditionally. -/
def logout (jar : CookieJar) : CookieJar :=
  cookieDelete jar COOKIE_NAME

/-! ### Route handlers (`part_001` lines 95–214) -/

/-- `loginHandler` (`part_001` line 100): as `login`, but shaping a
`NextResponse` — 401 on either credential failure, 200 with the cookie set
on success. -/
def loginHandler (s : Store) (secret : String) (now : Nat)
    (email password : String) : HandlerResponse :=
  match findUniqueByEmail s email with
  | none => ⟨401, false, some "Invalid credentials", none, .keep⟩
  | some u =>
    if comparePassword password u.password then
      let token := generateToken secret now ⟨u.id, u.name, u.email⟩
      ⟨200, true, none, some ⟨u.id, u.name, u.email⟩, .set (.signed token)⟩
    else
      ⟨401, false, some "Invalid credentials", none, .keep⟩

/-- `registerHandler` (`part_001` line 154): 409 `'User already exists'` on
a duplicate email; otherwise hashes the password, creates the user, and
returns 200 with the cookie set.  No input validation of any kind. -/
def registerHandler (s : Store) (secret : String) (now : Nat)
    (freshId : String) (salt : Nat) (name email password : String) :
    HandlerResponse × Store :=
  match findUniqueByEmail s email with
  | some _ => (⟨409, false, some "User already exists", none, .keep⟩, s)
  | none =>
    let hashed := hashPassword salt password
    let newUser : UserRow := ⟨freshId, some name, email, hashed⟩
    let token := generateToken secret now ⟨newUser.id, newUser.name, newUser.email⟩
    (⟨200, true, none, some ⟨newUser.id, newUser.name, newUser.email⟩,
        .set (.signed token)⟩,
      s ++ [newUser])

/-- `logoutHandler` (`part_001` line 210): `\x7b success: true \x7d` and
delete the cookie on the response. -/
def logoutHandler : HandlerResponse :=
  ⟨200, true, none, none, .delete⟩

/-! ### Form-based registration (`part_001` lines 316–407)

`handleRegister` extracts four fields from the `FormData` (each
`formData.get(...)` yields a string or `null`), validates them in order,
and only then calls `register`.  A JS falsiness check `!x` on a
string-or-null is true exactly for `null` and the empty string. -/

/-- `formData.get(...) as string` for the four registration fields. -/
structure RegisterForm where
  name : Option String
  email : Option String
  password : Option String
  confirmPassword : Option String
deriving DecidableEq, Repr

/-- JS falsiness of a `string | null` value: `null` or `''`. -/
def strFalsy : Option String → Bool
  | none => true
  | some s => s = ""

/-- Split a character list at every occurrence of a separator. -/
def splitChars (sep : Char) : List Char → List (List Char)
  | [] => [[]]
  | c :: rest =>
    match splitChars sep rest with
    | [] => if c = sep then [[], []] else [[c]]
    | h :: t => if c = sep then [] :: h :: t else (c :: h) :: t

/-- `isValidEmail` (`part_001` line 404): decides the regex
`/^[^\s@]+@[^\s@]+\.[^\s@]+$/`.  Exactly one `@`; the local part is a
non-empty run of non-whitespace characters; the remainder is
`[^\s@]+ '.' [^\s@]+`, i.e. whitespace-free with a `'.'` strictly inside
it (the class `[^\s@]` itself admits `'.'`, so only an interior dot is
required). -/
def isValidEmail (email : String) : Bool :=
  match splitChars '@' email.toList with
  | [localPart, rest] =>
    ¬ localPart.isEmpty &&
    localPart.all (fun c => ¬ c.isWhitespace) &&
    rest.all (fun c => ¬ c.isWhitespace) &&
    ((rest.drop 1).dropLast.contains '.')
  | _ => false

/-- The result of a form handler: `\x7b error \x7d` or
`\x7b success: true \x7d`. -/
inductive FormResult where
  | err (msg : String)
  | ok
deriving DecidableEq, Repr

/-- `handleRegister` (`part_001` line 351): field presence, email shape,
confirmation equality, then minimum password length; only after all four
does it call `register`. -/
def handleRegister (s : Store) (jar : CookieJar) (secret : String)
    (now : Nat) (freshId : String) (salt : Nat) (form : RegisterForm) :
    FormResult × Store × CookieJar :=
  if strFalsy form.name || strFalsy form.email || strFalsy form.password ||
      strFalsy form.confirmPassword then
    (.err "All fields are required", s, jar)
  else
    let name := form.name.getD ""
    let email := form.email.getD ""
    let password := form.password.getD ""
    let confirmPassword := form.confirmPassword.getD ""
    if ¬ isValidEmail email then
      (.err "Please enter a valid email address", s, jar)
    else if password ≠ confirmPassword then
      (.err "Passwords do not match", s, jar)
    else if password.length < 8 then
      (.err "Password must be at least 8 characters long", s, jar)
    else
      match register s jar secret now freshId salt name email password with
      | (res, s2, jar2) =>
        if res.success then (.ok, s2, jar2)
        else (.err (res.message.getD "Failed to register"), s2, jar2)

/-! ### User repository (`part_005` lines 226–307)

Each function wraps a Prisma call in `try/catch`.  The possibility that the
underlying store call throws is the explicit parameter
`fail : Option String` (`some e` = the Prisma promise rejected with `e`).
The return type is `Except String _` so that a rethrow (`throw error`) is
distinguishable from a returned value. -/

/-- A user row with the password digest stripped
(`select \x7b id, name, email \x7d`). -/
structure SafeUser where
  id : String
  name : Option String
  email : String
deriving DecidableEq, Repr

/-- Project the password away. -/
def UserRow.toSafe (u : UserRow) : SafeUser :=
  ⟨u.id, u.name, u.email⟩

/-- `getUserById` (`part_005` line 229): on a store failure it logs and
returns `null` — the error is not rethrown. -/
def getUserById (s : Store) (fail : Option String) (id : String) :
    Except String (Option SafeUser) :=
  match fail with
  | some _ => .ok none
  | none => .ok ((findUniqueById s id).map UserRow.toSafe)

/-- `getUserByEmail` (`part_005` line 246): includes the password digest
for authentication; on a store failure it logs and returns `null`. -/
def getUserByEmail (s : Store) (fail : Option String) (email : String) :
    Except String (Option UserRow) :=
  match fail with
  | some _ => .ok none
  | none => .ok (findUniqueByEmail s email)

/-- `createUser` (`part_005` line 263): on a store failure the error is
rethrown (`throw error`) to the calling function. -/
def createUser (s : Store) (fail : Option String) (freshId : String)
    (name email : String) (password : Digest) :
    Except String (SafeUser × Store) :=
  match fail with
  | some e => .error e
  | none =>
    let row : UserRow := ⟨freshId, some name, email, password⟩
    .ok (row.toSafe, s ++ [row])

/-- The `data` argument of `updateUser`:
`Partial<\x7b name; email; password \x7d>` — each field optionally
replaced. -/
structure UserPatch where
  name : Option String
  email : Option String
  password : Option Digest
deriving DecidableEq, Repr

/-- Apply a patch to a row, leaving absent fields unchanged. -/
def UserPatch.apply (p : UserPatch) (u : UserRow) : UserRow :=
  ⟨u.id,
    match p.name with | some n => some n | none => u.name,
    p.email.getD u.email,
    p.password.getD u.password⟩

/-- `updateUser` (`part_005` line 284): `prisma.user.update` on a missing
id throws, and the `catch` turns any error — missing row or store failure
alike — into `null`. -/
def updateUser (s : Store) (fail : Option String) (id : String)
    (data : UserPatch) : Except String (Option SafeUser × Store) :=
  match fail with
  | some _ => .ok (none, s)
  | none =>
    match findUniqueById s id with
    | none => .ok (none, s)
    | some _ =>
      let s2 := s.map fun u => if u.id = id then data.apply u else u
      .ok (((findUniqueById s2 id).map UserRow.toSafe), s2)

/-! ## Shared helper lemmas -/

/-- Setting a cookie makes it readable under the same name. -/
theorem cookieGet_cookieSet_same (jar : CookieJar) (nm : String)
    (v : TokenInput) : cookieGet (cookieSet jar nm v) nm = some v := by
  simp [cookieGet, cookieSet]

/-- Deleting a cookie makes it unreadable. -/
theorem cookieGet_cookieDelete_same (jar : CookieJar) (nm : String) :
    cookieGet (cookieDelete jar nm) nm = none := by
  simp only [cookieGet, cookieDelete, Option.map_eq_none', List.find?_eq_none,
    List.mem_filter]
  intro p hp
  simpa using hp.2

/-- Deleting a cookie twice is the same as deleting it once. -/
theorem cookieDelete_cookieDelete (jar : CookieJar) (nm : String) :
    cookieDelete (cookieDelete jar nm) nm = cookieDelete jar nm := by
  simp [cookieDelete, List.filter_filter]

/-- If the cookie is already absent, deleting it is a no-op. -/
theorem cookieDelete_of_absent (jar : CookieJar) (nm : String)
    (h : cookieGet jar nm = none) : cookieDelete jar nm = jar := by
  simp only [cookieGet, Option.map_eq_none', List.find?_eq_none] at h
  simp only [cookieDelete]
  exact List.filter_eq_self.mpr fun p hp => by simpa using h p hp

/-! ## The claims -/

/-- C1.  Token round-trip: verifying a token produced by `generateToken`
with the same secret, at any instant `now2` before the 30-day expiry,
returns exactly the original claims — in particular the same id, email and
name. -/
theorem token_round_trip (secret : String) (now now2 : Nat) (u : User)
    (h : now2 < now + THIRTY_DAYS) :
    verifyToken secret now2 (.signed (generateToken secret now u)) = some u := by
  simp [verifyToken, generateToken, h]

/-- C1 witness: a concrete round-trip ten seconds after issuance. -/
theorem token_round_trip_witness :
    (10 : Nat) < 0 + THIRTY_DAYS ∧
    verifyToken "server-secret" 10
        (.signed (generateToken "server-secret" 0 ⟨"u1", some "Ada", "ada@example.com"⟩))
      = some ⟨"u1", some "Ada", "ada@example.com"⟩ :=
  ⟨by decide,
    token_round_trip "server-secret" 0 10 ⟨"u1", some "Ada", "ada@example.com"⟩
      (by decide)⟩

/-- C6.  `getCurrentUser` is a total function of the cookie jar: it returns
the verified token's identity when the session cookie is present and
verifies, and `none` in every other case (cookie absent, or token invalid);
being a total Lean function, it raises no exception. -/
theorem getCurrentUser_total (jar : CookieJar) (secret : String) (now : Nat) :
    getCurrentUser jar secret now
      = (cookieGet jar COOKIE_NAME).bind (verifyToken secret now) := by
  unfold getCurrentUser getSession
  cases cookieGet jar COOKIE_NAME <;> simp

/-- C7.  `verifyToken` returns `none` on every input that is malformed,
signed with a different secret, or expired. -/
theorem verifyToken_rejects (secret : String) (now : Nat) (t : TokenInput)
    (h : ∀ st, t = .signed st → ¬ st.secret = secret ∨ st.exp ≤ now) :
    verifyToken secret now t = none := by
  cases t with
  | malformed s => rfl
  | signed st =>
    rcases h st rfl with hsec | hexp
    · simp [verifyToken, hsec]
    · have hc : ¬ (st.secret = secret ∧ now < st.exp) :=
        fun hc => absurd hexp (Nat.not_le.mpr hc.2)
      simp [verifyToken, hc]

/-- C7 witness: a malformed string, a token signed with a different secret,
and an expired token are each rejected. -/
theorem verifyToken_rejects_witness :
    verifyToken "server-secret" 99 (.malformed "garbage") = none ∧
    verifyToken "server-secret" 99
        (.signed (generateToken "other-secret" 0 ⟨"u1", none, "a@b.c"⟩)) = none ∧
    verifyToken "server-secret" (THIRTY_DAYS + 5)
        (.signed (generateToken "server-secret" 0 ⟨"u1", none, "a@b.c"⟩)) = none :=
  ⟨verifyToken_rejects "server-secret" 99 (.malformed "garbage") (fun _ h => by cases h),
    verifyToken_rejects "server-secret" 99 _
      (fun st h => by cases h; exact Or.inl (by decide)),
    verifyToken_rejects "server-secret" (THIRTY_DAYS + 5) _
      (fun st h => by cases h; exact Or.inr (by decide))⟩

/-- C8.  `logout` is idempotent — a second call changes nothing — the
session cookie is absent afterwards, and calling it with no active session
(session cookie already absent) is a no-op rather than an error; the
route-handler variant reports success and deletes the cookie. -/
theorem logout_idempotent (jar : CookieJar) :
    logout (logout jar) = logout jar ∧
    cookieGet (logout jar) COOKIE_NAME = none ∧
    (cookieGet jar COOKIE_NAME = none → logout jar = jar) ∧
    logoutHandler.success = true ∧ logoutHandler.cookie = .delete :=
  ⟨cookieDelete_cookieDelete jar COOKIE_NAME,
    cookieGet_cookieDelete_same jar COOKIE_NAME,
    fun h => cookieDelete_of_absent jar COOKIE_NAME h,
    rfl, rfl⟩

/-- C8 witness: the idempotence facts at a concrete jar holding a session
cookie and another cookie, and the no-op fact at a jar with no session. -/
theorem logout_idempotent_witness :
    (logout (logout [(COOKIE_NAME, .malformed "tok"), ("admin-session", .malformed "x")])
        = logout [(COOKIE_NAME, .malformed "tok"), ("admin-session", .malformed "x")] ∧
      cookieGet (logout [(COOKIE_NAME, .malformed "tok"), ("admin-session", .malformed "x")])
        COOKIE_NAME = none) ∧
    logout [("admin-session", TokenInput.malformed "x")]
      = [("admin-session", TokenInput.malformed "x")] :=
  ⟨⟨(logout_idempotent [(COOKIE_NAME, .malformed "tok"), ("admin-session", .malformed "x")]).1,
      (logout_idempotent [(COOKIE_NAME, .malformed "tok"), ("admin-session", .malformed "x")]).2.1⟩,
    (logout_idempotent [("admin-session", .malformed "x")]).2.2.1 (by decide)⟩

/-- C2.  Registering an email that already belongs to a user returns the
conflict outcome `'User already exists'` in both the server-action and the
route-handler (HTTP 409) variant, and the store is returned unchanged — no
new row is created. -/
theorem register_conflict (s : Store) (jar : CookieJar) (secret : String)
    (now : Nat) (freshId : String) (salt : Nat) (name email password : String)
    (u : UserRow) (h : findUniqueByEmail s email = some u) :
    register s jar secret now freshId salt name email password
      = (⟨false, some "User already exists", none⟩, s, jar) ∧
    registerHandler s secret now freshId salt name email password
      = (⟨409, false, some "User already exists", none, .keep⟩, s) := by
  constructor
  · simp [register, h]
  · simp [registerHandler, h]

/-- C2 witness: re-registering Ada's email against a one-row store. -/
theorem register_conflict_witness :
    findUniqueByEmail [⟨"u1", some "Ada", "ada@example.com", ⟨5, "longenough1"⟩⟩]
        "ada@example.com"
      = some ⟨"u1", some "Ada", "ada@example.com", ⟨5, "longenough1"⟩⟩ ∧
    register [⟨"u1", some "Ada", "ada@example.com", ⟨5, "longenough1"⟩⟩] []
        "server-secret" 0 "u2" 7 "Bob" "ada@example.com" "password99"
      = (⟨false, some "User already exists", none⟩,
          [⟨"u1", some "Ada", "ada@example.com", ⟨5, "longenough1"⟩⟩], []) :=
  ⟨by decide,
    (register_conflict [⟨"u1", some "Ada", "ada@example.com", ⟨5, "longenough1"⟩⟩]
      [] "server-secret" 0 "u2" 7 "Bob" "ada@example.com" "password99"
      ⟨"u1", some "Ada", "ada@example.com", ⟨5, "longenough1"⟩⟩ (by decide)).1⟩

/-- C3.  Credential-failure indistinguishability: a login whose email
matches no user and a login whose email matches but whose password fails
verification produce results with the identical `'Invalid credentials'`
message — equal `AuthResult`s in the server-action variant and equal
401 responses in the route-handler variant. -/
theorem login_failure_indistinguishable
    (s1 s2 : Store) (jar1 jar2 : CookieJar) (secret1 secret2 : String)
    (now1 now2 : Nat) (email1 password1 email2 password2 : String)
    (u : UserRow)
    (h1 : findUniqueByEmail s1 email1 = none)
    (h2 : findUniqueByEmail s2 email2 = some u)
    (h3 : comparePassword password2 u.password = false) :
    (login s1 jar1 secret1 now1 email1 password1).1
      = ⟨false, some "Invalid credentials", none⟩ ∧
    (login s2 jar2 secret2 now2 email2 password2).1
      = ⟨false, some "Invalid credentials", none⟩ ∧
    (login s1 jar1 secret1 now1 email1 password1).1
      = (login s2 jar2 secret2 now2 email2 password2).1 ∧
    loginHandler s1 secret1 now1 email1 password1
      = ⟨401, false, some "Invalid credentials", none, .keep⟩ ∧
    loginHandler s1 secret1 now1 email1 password1
      = loginHandler s2 secret2 now2 email2 password2 := by
  have e1 : (login s1 jar1 secret1 now1 email1 password1).1
      = ⟨false, some "Invalid credentials", none⟩ := by
    simp [login, h1]
  have e2 : (login s2 jar2 secret2 now2 email2 password2).1
      = ⟨false, some "Invalid credentials", none⟩ := by
    simp [login, h2, h3]
  have e3 : loginHandler s1 secret1 now1 email1 password1
      = ⟨401, false, some "Invalid credentials", none, .keep⟩ := by
    simp [loginHandler, h1]
  have e4 : loginHandler s2 secret2 now2 email2 password2
      = ⟨401, false, some "Invalid credentials", none, .keep⟩ := by
    simp [loginHandler, h2, h3]
  exact ⟨e1, e2, e1.trans e2.symm, e3, e3.trans e4.symm⟩

/-- C3 witness: an unknown email against an empty store versus Ada's email
with a wrong password. -/
theorem login_failure_indistinguishable_witness :
    comparePassword "wrongpass" (Digest.mk 5 "longenough1") = false ∧
    (login [] [] "server-secret" 0 "ghost@example.com" "whatever").1
      = ⟨false, some "Invalid credentials", none⟩ ∧
    (login [⟨"u1", some "Ada", "ada@example.com", ⟨5, "longenough1"⟩⟩] []
        "server-secret" 0 "ada@example.com" "wrongpass").1
      = ⟨false, some "Invalid credentials", none⟩ :=
  ⟨by decide,
    (login_failure_indistinguishable []
        [⟨"u1", some "Ada", "ada@example.com", ⟨5, "longenough1"⟩⟩] [] []
        "server-secret" "server-secret" 0 0 "ghost@example.com" "whatever"
        "ada@example.com" "wrongpass"
        ⟨"u1", some "Ada", "ada@example.com", ⟨5, "longenough1"⟩⟩
        (by decide) (by decide) (by decide)).1,
    (login_failure_indistinguishable []
        [⟨"u1", some "Ada", "ada@example.com", ⟨5, "longenough1"⟩⟩] [] []
        "server-secret" "server-secret" 0 0 "ghost@example.com" "whatever"
        "ada@example.com" "wrongpass"
        ⟨"u1", some "Ada", "ada@example.com", ⟨5, "longenough1"⟩⟩
        (by decide) (by decide) (by decide)).2.1⟩

/-- C9.  Register/session round trip: with an unused email, `register`
succeeds, the session cookie afterwards holds the signed token for the new
user, and `getCurrentUser` at any instant before expiry returns the same
identity (id, email, and name). -/
theorem register_session_round_trip (s : Store) (jar : CookieJar)
    (secret : String) (now now2 : Nat) (freshId : String) (salt : Nat)
    (name email password : String)
    (hfree : findUniqueByEmail s email = none)
    (hnow : now2 < now + THIRTY_DAYS) :
    (register s jar secret now freshId salt name email password).1.success
      = true ∧
    cookieGet (register s jar secret now freshId salt name email password).2.2
        COOKIE_NAME
      = some (.signed (generateToken secret now ⟨freshId, some name, email⟩)) ∧
    getCurrentUser
        (register s jar secret now freshId salt name email password).2.2
        secret now2
      = some ⟨freshId, some name, email⟩ := by
  have hreg : register s jar secret now freshId salt name email password
      = (⟨true, none, some ⟨freshId, some name, email⟩⟩,
          s ++ [⟨freshId, some name, email, hashPassword salt password⟩],
          cookieSet jar COOKIE_NAME
            (.signed (generateToken secret now ⟨freshId, some name, email⟩))) := by
    simp [register, hfree, hashPassword]
  refine ⟨by rw [hreg], ?_, ?_⟩
  · rw [hreg]
    exact cookieGet_cookieSet_same jar COOKIE_NAME _
  · rw [hreg, getCurrentUser_total, cookieGet_cookieSet_same]
    simpa using token_round_trip secret now now2 ⟨freshId, some name, email⟩ hnow

/-- C9 witness: registering Ada against an empty store and reading the
session back one hour later. -/
theorem register_session_round_trip_witness :
    findUniqueByEmail [] "ada@example.com" = none ∧
    (3600 : Nat) < 0 + THIRTY_DAYS ∧
    getCurrentUser
        (register [] [] "server-secret" 0 "u1" 5 "Ada" "ada@example.com"
          "longenough1").2.2 "server-secret" 3600
      = some ⟨"u1", some "Ada", "ada@example.com"⟩ :=
  ⟨by decide, by decide,
    (register_session_round_trip [] [] "server-secret" 0 3600 "u1" 5 "Ada"
      "ada@example.com" "longenough1" (by decide) (by decide)).2.2⟩

/-- C10.  The JSON route-handler registration path validates nothing: for
every name, email and password — empty or malformed included — with an
unused email, `registerHandler` hashes the password, appends the new row to
the store, and returns HTTP 200 with the session cookie set. -/
theorem registerHandler_no_validation (s : Store) (secret : String)
    (now : Nat) (freshId : String) (salt : Nat)
    (name email password : String)
    (hfree : findUniqueByEmail s email = none) :
    registerHandler s secret now freshId salt name email password
      = (⟨200, true, none, some ⟨freshId, some name, email⟩,
            .set (.signed (generateToken secret now ⟨freshId, some name, email⟩))⟩,
          s ++ [⟨freshId, some name, email, hashPassword salt password⟩]) := by
  simp [registerHandler, hfree, hashPassword]

/-- C10 witness: an empty name, a malformed email (rejected by
`isValidEmail`) and an empty password (length 0 < 8) still register
successfully through the route handler. -/
theorem registerHandler_no_validation_witness :
    findUniqueByEmail [] "bademail" = none ∧
    isValidEmail "bademail" = false ∧
    String.length "" < 8 ∧
    registerHandler [] "server-secret" 0 "u1" 5 "" "bademail" ""
      = (⟨200, true, none, some ⟨"u1", some "", "bademail"⟩,
            .set (.signed (generateToken "server-secret" 0
              ⟨"u1", some "", "bademail"⟩))⟩,
          [⟨"u1", some "", "bademail", hashPassword 5 ""⟩]) :=
  ⟨by decide, by decide, by decide,
    registerHandler_no_validation [] "server-secret" 0 "u1" 5 "" "bademail" ""
      (by decide)⟩

/-- C5.  `handleRegister` validates before any store access: an empty field
yields `'All fields are required'`, a malformed email
`'Please enter a valid email address'`, a mismatched confirmation
`'Passwords do not match'`, and a password shorter than 8 characters —
length 7 in particular — `'Password must be at least 8 characters long'`,
each with the store and cookie jar untouched; once every validation passes
(length 8 suffices for the length check) the handler reaches the store and
answers with the registration outcome, never a validation error. -/
theorem handleRegister_validation (s : Store) (jar : CookieJar)
    (secret : String) (now : Nat) (freshId : String) (salt : Nat)
    (name email password confirm : String) :
    ((name = "" ∨ email = "" ∨ password = "" ∨ confirm = "") →
      handleRegister s jar secret now freshId salt
          ⟨some name, some email, some password, some confirm⟩
        = (.err "All fields are required", s, jar)) ∧
    (name ≠ "" → email ≠ "" → password ≠ "" → confirm ≠ "" →
      isValidEmail email = false →
      handleRegister s jar secret now freshId salt
          ⟨some name, some email, some password, some confirm⟩
        = (.err "Please enter a valid email address", s, jar)) ∧
    (name ≠ "" → email ≠ "" → password ≠ "" → confirm ≠ "" →
      isValidEmail email = true → password ≠ confirm →
      handleRegister s jar secret now freshId salt
          ⟨some name, some email, some password, some confirm⟩
        = (.err "Passwords do not match", s, jar)) ∧
    (name ≠ "" → email ≠ "" → password ≠ "" → confirm ≠ "" →
      isValidEmail email = true → password = confirm → password.length < 8 →
      handleRegister s jar secret now freshId salt
          ⟨some name, some email, some password, some confirm⟩
        = (.err "Password must be at least 8 characters long", s, jar)) ∧
    (name ≠ "" → email ≠ "" → password ≠ "" → confirm ≠ "" →
      isValidEmail email = true → password = confirm → 8 ≤ password.length →
      ((handleRegister s jar secret now freshId salt
          ⟨some name, some email, some password, some confirm⟩).1 = .ok ∨
        (handleRegister s jar secret now freshId salt
          ⟨some name, some email, some password, some confirm⟩).1
          = .err "User already exists")) := by
  refine ⟨?_, ?_, ?_, ?_, ?_⟩
  · rintro (h | h | h | h) <;> simp [handleRegister, strFalsy, h]
  · intro hn he hp hc hiv
    simp [handleRegister, strFalsy, hn, he, hp, hc, hiv]
  · intro hn he hp hc hiv hne
    simp [handleRegister, strFalsy, hn, he, hp, hc, hiv, hne]
  · intro hn he hp hc hiv heq hlen
    subst heq
    simp [handleRegister, strFalsy, hn, he, hp, hiv, hlen]
  · intro hn he hp hc hiv heq hlen
    subst heq
    have hnl : ¬ password.length < 8 := Nat.not_lt.mpr hlen
    cases hfind : findUniqueByEmail s email with
    | none =>
      exact Or.inl (by
        simp [handleRegister, strFalsy, hn, he, hp, hiv, hnl, register, hfind])
    | some u =>
      exact Or.inr (by
        simp [handleRegister, strFalsy, hn, he, hp, hiv, hnl, register, hfind])

/-- C5 witness: a 7-character password is rejected with the length error
while the store stays empty, and the same submission with an 8-character
password passes every validation and registers. -/
theorem handleRegister_validation_witness :
    handleRegister [] [] "server-secret" 0 "u1" 5
        ⟨some "Ada", some "ada@example.com", some "1234567", some "1234567"⟩
      = (.err "Password must be at least 8 characters long", [], []) ∧
    (handleRegister [] [] "server-secret" 0 "u1" 5
        ⟨some "Ada", some "ada@example.com", some "12345678", some "12345678"⟩).1
      = .ok :=
  ⟨(handleRegister_validation [] [] "server-secret" 0 "u1" 5
      "Ada" "ada@example.com" "1234567" "1234567").2.2.2.1
      (by decide) (by decide) (by decide) (by decide) (by decide) rfl (by decide),
    ((handleRegister_validation [] [] "server-secret" 0 "u1" 5
      "Ada" "ada@example.com" "12345678" "12345678").2.2.2.2
      (by decide) (by decide) (by decide) (by decide) (by decide) rfl
      (by decide)).resolve_right (by decide)⟩

/-- C4 counterexample: on a store whose Prisma call fails (the underlying
promise rejects with `'connection reset'`), `getUserById`, `getUserByEmail`
and `updateUser` return an ordinary `null` result — `Except.ok none`,
exactly the not-found answer — instead of propagating any error, even
though the queried row exists. -/
theorem repository_swallows_store_failure :
    getUserById [⟨"u1", some "Ada", "ada@example.com", ⟨5, "longenough1"⟩⟩]
        (some "connection reset") "u1"
      = .ok none ∧
    getUserByEmail [⟨"u1", some "Ada", "ada@example.com", ⟨5, "longenough1"⟩⟩]
        (some "connection reset") "ada@example.com"
      = .ok none ∧
    updateUser [⟨"u1", some "Ada", "ada@example.com", ⟨5, "longenough1"⟩⟩]
        (some "connection reset") "u1" ⟨some "Bea", none, none⟩
      = .ok (none, [⟨"u1", some "Ada", "ada@example.com", ⟨5, "longenough1"⟩⟩]) := by
  refine ⟨rfl, rfl, rfl⟩

/-- C4 (amended).  Not-found inputs yield a null result and an unchanged
store from every operation; an unexpected store failure propagates to the
caller only from `createUser`, which rethrows it, while `getUserById`,
`getUserByEmail` and `updateUser` catch it and return null, exactly as on
not-found. -/
theorem repository_error_behavior (s : Store) (e : String)
    (id email freshId nm em : String) (d : Digest) (p : UserPatch)
    (hid : findUniqueById s id = none)
    (hem : findUniqueByEmail s email = none) :
    getUserById s none id = .ok none ∧
    getUserByEmail s none email = .ok none ∧
    updateUser s none id p = .ok (none, s) ∧
    createUser s (some e) freshId nm em d = .error e ∧
    getUserById s (some e) id = .ok none ∧
    getUserByEmail s (some e) email = .ok none ∧
    updateUser s (some e) id p = .ok (none, s) := by
  refine ⟨?_, ?_, ?_, rfl, rfl, rfl, rfl⟩
  · simp [getUserById, hid]
  · simp [getUserByEmail, hem]
  · simp [updateUser, hid]

/-- C4 witness: a one-row store queried for an absent id and email, and a
failing create. -/
theorem repository_error_behavior_witness :
    findUniqueById [⟨"u1", some "Ada", "ada@example.com", ⟨5, "longenough1"⟩⟩]
        "missing" = none ∧
    findUniqueByEmail [⟨"u1", some "Ada", "ada@example.com", ⟨5, "longenough1"⟩⟩]
        "ghost@example.com" = none ∧
    getUserById [⟨"u1", some "Ada", "ada@example.com", ⟨5, "longenough1"⟩⟩]
        none "missing" = .ok none ∧
    createUser [⟨"u1", some "Ada", "ada@example.com", ⟨5, "longenough1"⟩⟩]
        (some "connection reset") "u2" "Bob" "bob@example.com" ⟨7, "password99"⟩
      = .error "connection reset" :=
  ⟨by decide, by decide,
    (repository_error_behavior
      [⟨"u1", some "Ada", "ada@example.com", ⟨5, "longenough1"⟩⟩]
      "connection reset" "missing" "ghost@example.com" "u2" "Bob"
      "bob@example.com" ⟨7, "password99"⟩ ⟨none, none, none⟩
      (by decide) (by decide)).1,
    (repository_error_behavior
      [⟨"u1", some "Ada", "ada@example.com", ⟨5, "longenough1"⟩⟩]
      "connection reset" "missing" "ghost@example.com" "u2" "Bob"
      "bob@example.com" ⟨7, "password99"⟩ ⟨none, none, none⟩
      (by decide) (by decide)).2.2.2.1⟩

end Fyp
